import Mathlib

/-
Verification of the CRX container parser repository (wasm_crx_parser).

The repository consists of a JavaScript integration layer (src/js/index.js),
a demo page, and a WebAssembly core (Rust) whose source is not part of the
provided files.  The JavaScript layer is embedded here faithfully from the
source; the WebAssembly core functions (parse_crx / extract_zip_data and the
CRX3 sub-message decoder) are modelled from the specification, as noted on
each definition.

Buffers are byte lists (each JS Uint8Array element is a Nat below 256; the
embedding does not need that bound for any of the statements proved here).
-/

namespace Crx

/-- The 4-byte CRX magic constant, ASCII for the string Cr24. -/
def crxMagic : List Nat := [67, 114, 50, 52]

/-- Read a little-endian u32 at byte offset `off`; `none` when fewer than
4 bytes remain past `off`. -/
def readU32LE (buf : List Nat) (off : Nat) : Option Nat :=
  if off + 4 ≤ buf.length then
    some (buf.getD off 0 + 256 * buf.getD (off + 1) 0 +
      65536 * buf.getD (off + 2) 0 + 16777216 * buf.getD (off + 3) 0)
  else none

/-- Error taxonomy from the specification (section 7), plus `JsMessage` for
an error thrown by the JavaScript layer that carries only a message string
(`new Error(...)` in src/js/index.js). -/
inductive CrxError where
  | BadMagic
  | UnsupportedVersion (n : Nat)
  | Truncated
  | LengthMismatch
  | TruncatedRecord
  | OffsetOutOfRange
  | EmptyPayload
  | NotZip
  | JsMessage (s : String)
deriving DecidableEq, Repr

/-- True exactly for the eight matchable variants of the specification's
error taxonomy; false for a JavaScript message-string error. -/
def isTaxonomyError : CrxError → Bool
  | .JsMessage _ => false
  | _ => true

/-- The parse result (specification section 3).  `version` is the numeric
format version (2 for CRX2, 3 for CRX3). -/
structure ContainerHeader where
  version : Nat
  public_keys : List (List Nat)
  signatures : List (List Nat)
  zip_offset : Nat
deriving DecidableEq, Repr

/-- Protobuf-style varint: returns the decoded value and the number of bytes
consumed, or `none` when the bytes end inside the varint. -/
def readVarint : List Nat → Option (Nat × Nat)
  | [] => none
  | b :: rest =>
      if b < 128 then some (b, 1)
      else
        match readVarint rest with
        | some (v, k) => some (b % 128 + 128 * v, k + 1)
        | none => none

/-- Modelled from the spec: the record stream of the CRX3 header body
(section 4.3), which is not among the provided source files.  Each record is
a tag byte, a varint length and that many payload bytes; a zero tag byte
marks the end of the records.  Returns the (tag, payload) pairs and the
number of bytes consumed.  A record whose declared length overruns the
bounded slice is `TruncatedRecord`.  `fuel` only bounds the recursion and is
always called with the slice length, which every step strictly decreases. -/
def readRecordsF : Nat → List Nat → Except CrxError (List (Nat × List Nat) × Nat)
  | _, [] => .ok ([], 0)
  | 0, _ :: _ => .error .TruncatedRecord
  | fuel + 1, t :: rest =>
      if t = 0 then .ok ([], 0)
      else
        match readVarint rest with
        | none => .error .TruncatedRecord
        | some (len, k) =>
            if (rest.drop k).length < len then .error .TruncatedRecord
            else
              match readRecordsF fuel ((rest.drop k).drop len) with
              | .ok (rs, c) => .ok ((t, (rest.drop k).take len) :: rs, 1 + k + len + c)
              | .error e => .error e

/-- Read the record stream of a bounded slice. -/
def readRecords (s : List Nat) : Except CrxError (List (Nat × List Nat) × Nat) :=
  readRecordsF s.length s

/-- First payload carrying tag `t`, or the empty byte string. -/
def firstPayload (t : Nat) : List (Nat × List Nat) → List Nat
  | [] => []
  | (u, p) :: rest => if u = t then p else firstPayload t rest

/-- Modelled from the spec: tags of AsymmetricKeyProof records inside the
CRX3 header body (one per signer). -/
def isProofTag (t : Nat) : Bool := t == 2 || t == 3

/-- Modelled from the spec: decode one AsymmetricKeyProof record payload into
its public-key byte string (inner tag 1) and signature byte string (inner
tag 2). -/
def decodeProof (p : List Nat) : Except CrxError (List Nat × List Nat) :=
  match readRecords p with
  | .error e => .error e
  | .ok (rs, _) => .ok (firstPayload 1 rs, firstPayload 2 rs)

/-- Decode every AsymmetricKeyProof record, in stream order; records with an
unrecognized tag are skipped. -/
def decodeProofs : List (Nat × List Nat) → Except CrxError (List (List Nat) × List (List Nat))
  | [] => .ok ([], [])
  | (t, p) :: rest =>
      if isProofTag t then
        match decodeProof p, decodeProofs rest with
        | .ok kp, .ok (ks, ss) => .ok (kp.1 :: ks, kp.2 :: ss)
        | .error e, _ => .error e
        | .ok _, .error e => .error e
      else decodeProofs rest

/-- Modelled from the spec: the CRX3 nested sub-message decoder
(section 4.3).  The records of the `header_length`-bounded slice must
consume exactly the whole slice; otherwise the result is `LengthMismatch`. -/
def decode (s : List Nat) : Except CrxError (List (List Nat) × List (List Nat)) :=
  match readRecords s with
  | .error e => .error e
  | .ok (rs, c) => if c = s.length then decodeProofs rs else .error .LengthMismatch

/-- Modelled from the spec: the CRX2 path of the header parser
(section 4.1). -/
def parseCrx2 (buf : List Nat) : Except CrxError ContainerHeader :=
  match readU32LE buf 8, readU32LE buf 12 with
  | some kl, some sl =>
      if buf.length < 16 + kl + sl then .error .Truncated
      else .ok ⟨2, [(buf.drop 16).take kl], [(buf.drop (16 + kl)).take sl], 16 + kl + sl⟩
  | _, _ => .error .Truncated

/-- Modelled from the spec: the CRX3 path of the header parser
(section 4.1). -/
def parseCrx3 (buf : List Nat) : Except CrxError ContainerHeader :=
  match readU32LE buf 8 with
  | none => .error .Truncated
  | some hl =>
      if buf.length < 12 + hl then .error .Truncated
      else
        match decode ((buf.drop 12).take hl) with
        | .ok (ks, ss) => .ok ⟨3, ks, ss, 12 + hl⟩
        | .error e => .error e

/-- Version dispatch after magic and version have been read. -/
def parseVersioned (buf : List Nat) (v : Nat) : Except CrxError ContainerHeader :=
  if v = 2 then parseCrx2 buf
  else if v = 3 then parseCrx3 buf
  else .error (.UnsupportedVersion v)

/-- Modelled from the spec: the container header parser
`parse_container(bytes)` (section 4.1), realized by the WebAssembly core
whose Rust source is not among the provided files. -/
def parse_container (buf : List Nat) : Except CrxError ContainerHeader :=
  if buf.length < 4 then .error .Truncated
  else if buf.take 4 = crxMagic then
    match readU32LE buf 4 with
    | none => .error .Truncated
    | some v => parseVersioned buf v
  else .error .BadMagic

/-- Modelled from the spec: the convenience extractor
`extract_payload_from_offset(bytes, zip_offset)` as the specification
describes it (sections 4.2 and 6): offset bound check, minimum-length check,
then the two-byte ZIP signature check, treated as fatal per the reference
behavior. -/
def extract_payload_from_offset (buf : List Nat) (off : Nat) : Except CrxError (List Nat) :=
  if buf.length < off then .error .OffsetOutOfRange
  else
    match buf.drop off with
    | a :: b :: rest =>
        if a = 80 ∧ b = 75 then .ok (a :: b :: rest) else .error .NotZip
    | _ => .error .EmptyPayload

/-- Modelled from the spec: the WebAssembly function `extract_zip_data`,
composing the parser with the payload extractor of section 4.2. -/
def extract_zip_data (buf : List Nat) : Except CrxError (List Nat) :=
  match parse_container buf with
  | .ok h => extract_payload_from_offset buf h.zip_offset
  | .error e => .error e

/-- The JS-facing parse result of the WebAssembly core: singular
`public_key` and `signature` fields (src/js/index.js reads
`crxInfo.public_key`, `crxInfo.signature`, `crxInfo.zip_offset`). -/
structure CrxInfo where
  version : Nat
  public_key : List Nat
  signature : List Nat
  zip_offset : Nat
deriving DecidableEq, Repr

/-- Modelled from the spec: the WebAssembly function `parse_crx`.  Per the
specification's note on the JS-facing contract (section 9), the singular
key/signature fields expose index 0 of the parsed sequences (empty when a
CRX3 file carries no proof records). -/
def parse_crx (bytes : List Nat) : Except CrxError CrxInfo :=
  (parse_container bytes).map fun h =>
    ⟨h.version, h.public_keys.headD [], h.signatures.headD [], h.zip_offset⟩

/-- The message of the error thrown by the ZIP-signature check in
`CrxParser.extractZip` (src/js/index.js line 57). -/
def notAValidZipMsg : String := "Extracted data is not a valid ZIP file (missing signature)"

/-- The ZIP-signature validation step of `CrxParser.extractZip`
(src/js/index.js lines 52-57): `zipData[0] === 0x50 && zipData[1] === 0x4B`,
where indexing past the end yields `undefined` (here: `none`) and fails the
comparison; on failure a plain `Error` with a fixed message is thrown. -/
def jsValidateZip (zipData : List Nat) : Except CrxError (List Nat) :=
  if zipData.get? 0 = some 80 ∧ zipData.get? 1 = some 75 then .ok zipData
  else .error (.JsMessage notAValidZipMsg)

/-- `CrxParser.extractZip` (src/js/index.js lines 44-66): calls the
WebAssembly extractor, validates the ZIP signature, and re-throws any error
unchanged (the catch block logs and re-throws the same error object). -/
def extractZip (buffer : List Nat) : Except CrxError (List Nat) :=
  match extract_zip_data buffer with
  | .ok zipData => jsValidateZip zipData
  | .error e => .error e

/-- Modelled from the spec: the message text carried by a thrown core error,
as read by `error.message` in src/js/index.js.  The Rust core is not among
the provided files, so messages are modelled as the variant names of the
specification's error taxonomy. -/
def errMessage : CrxError → String
  | .BadMagic => "BadMagic"
  | .UnsupportedVersion n => "UnsupportedVersion " ++ toString n
  | .Truncated => "Truncated"
  | .LengthMismatch => "LengthMismatch"
  | .TruncatedRecord => "TruncatedRecord"
  | .OffsetOutOfRange => "OffsetOutOfRange"
  | .EmptyPayload => "EmptyPayload"
  | .NotZip => "NotZip"
  | .JsMessage s => s

/-- `CrxParser.manualExtractZip` (src/js/index.js lines 75-89): parses the
CRX to get `zip_offset`, then returns `bytes.slice(zipOffset)` with no
further checks; any error is caught and re-thrown as a new `Error` whose
message wraps the message of the cause. -/
def manualExtractZip (bytes : List Nat) : Except CrxError (List Nat) :=
  match parse_crx bytes with
  | .ok info => .ok (bytes.drop info.zip_offset)
  | .error e => .error (.JsMessage ("Failed to extract ZIP data: " ++ errMessage e))

/-- The result object built by `CrxParser.parse` (src/js/index.js
lines 30-35). -/
structure ParseResult where
  version : Nat
  publicKey : List Nat
  signature : List Nat
  zipOffset : Nat
deriving DecidableEq, Repr

/-- The observable JavaScript module state: the two module-level variables
declared in src/js/index.js lines 4-6 (`initialized`, `initPromise`), plus
`wasmReady`, which models whether `initWasm()` has completed and the
WebAssembly exports are callable. -/
structure JsModuleState where
  initialized : Bool
  initPromise : Option Unit
  wasmReady : Bool
deriving DecidableEq, Repr

/-- Modelled from the spec: the effect of awaiting `initWasm()` (the
generated wasm-bindgen loader, not among the provided files) — the module
becomes callable; the two module-level variables are not touched. -/
def initWasm (s : JsModuleState) : JsModuleState :=
  { s with wasmReady := true }

/-- `CrxParser.initialize` (src/js/index.js lines 12-16): awaits
`initWasm()` and nothing else. -/
def initModule (s : JsModuleState) : JsModuleState := initWasm s

/-- The message of the error thrown when a wasm export is invoked before the
module finished loading.  Modelled from the spec (the loader is not among
the provided files). -/
def wasmNotReadyMsg : String := "wasm module is not initialized"

/-- Modelled from the spec: invoking a WebAssembly export only succeeds once
the module has been initialized (specification section 9: a one-time
module-initialization step before parsing is available). -/
def wasmGuard {α : Type} (s : JsModuleState) (r : Except CrxError α) : Except CrxError α :=
  if s.wasmReady then r else .error (.JsMessage wasmNotReadyMsg)

/-- `CrxParser.parse` (src/js/index.js lines 24-37) over the module state:
awaits `this.initialize()` first, then calls `wasm.parse_crx` and copies the
fields into a fresh result object. -/
def crxParseS (s : JsModuleState) (buffer : List Nat) :
    JsModuleState × Except CrxError ParseResult :=
  let s1 := initModule s
  (s1, (wasmGuard s1 (parse_crx buffer)).map fun i =>
    ⟨i.version, i.public_key, i.signature, i.zip_offset⟩)

/-- `CrxParser.extractZip` over the module state: invokes
`wasm.extract_zip_data` directly, with no initialization step. -/
def extractZipS (s : JsModuleState) (buffer : List Nat) :
    JsModuleState × Except CrxError (List Nat) :=
  (s, match wasmGuard s (extract_zip_data buffer) with
      | .ok zipData => jsValidateZip zipData
      | .error e => .error e)

/-- `CrxParser.manualExtractZip` over the module state: invokes
`wasm.parse_crx` directly, with no initialization step. -/
def manualExtractZipS (s : JsModuleState) (bytes : List Nat) :
    JsModuleState × Except CrxError (List Nat) :=
  (s, match wasmGuard s (parse_crx bytes) with
      | .ok info => .ok (bytes.drop info.zip_offset)
      | .error e => .error (.JsMessage ("Failed to extract ZIP data: " ++ errMessage e)))

/-- A heap of byte-array stores; a `Uint8Array` value is an index into it.
`new Uint8Array(src)` and `slice` allocate a fresh store; views that share a
store would alias. -/
abbrev Heap := List (List Nat)

/-- The bytes behind a reference. -/
def deref (h : Heap) (r : Nat) : List Nat := (h.get? r).getD []

/-- Allocate a fresh store holding `a`; returns the new heap and the fresh
reference. -/
def allocH (h : Heap) (a : List Nat) : Heap × Nat := (h ++ [a], h.length)

/-- Overwrite the store behind `r` (a JavaScript in-place mutation of a
`Uint8Array`). -/
def writeH (h : Heap) (r : Nat) (a : List Nat) : Heap := h.set r a

/-- The result object of `CrxParser.parse` at the heap level: scalars plus
references to the two arrays. -/
structure HeapParseResult where
  version : Nat
  publicKey : Nat
  signature : Nat
  zipOffset : Nat
deriving DecidableEq, Repr

/-- `CrxParser.parse` at the heap level (src/js/index.js lines 28-36): the
`new Uint8Array(crxInfo.public_key)` and `new Uint8Array(crxInfo.signature)`
constructor calls copy the bytes into freshly allocated stores; `version`
and `zipOffset` are scalars. -/
def crxParseH (h : Heap) (r : Nat) : Heap × Except CrxError HeapParseResult :=
  match parse_crx (deref h r) with
  | .error e => (h, .error e)
  | .ok info =>
      let a1 := allocH h info.public_key
      let a2 := allocH a1.1 info.signature
      (a2.1, .ok ⟨info.version, a1.2, a2.2, info.zip_offset⟩)

/-- `CrxParser.manualExtractZip` at the heap level (src/js/index.js
lines 83-84): `bytes.slice(zipOffset)` copies the tail into a freshly
allocated store. -/
def manualExtractZipH (h : Heap) (r : Nat) : Heap × Except CrxError Nat :=
  match parse_crx (deref h r) with
  | .error e => (h, .error (.JsMessage ("Failed to extract ZIP data: " ++ errMessage e)))
  | .ok info =>
      let a1 := allocH h ((deref h r).drop info.zip_offset)
      (a1.1, .ok a1.2)

/-- Concrete scenario A of the specification, byte for byte as written:
Cr24, u32(2), u32(3), u32(2), the bytes of key, the bytes of sig, then
PK 03 04. -/
def scenarioABuf : List Nat :=
  [67, 114, 50, 52, 2, 0, 0, 0, 3, 0, 0, 0, 2, 0, 0, 0,
   107, 101, 121, 115, 105, 103, 80, 75, 3, 4]

/-- Scenario A with the signature length declared as u32(3), so that the
declared lengths actually cover the key and sig bytes, and with the payload
replaced by the two bytes XY (scenario D shape). -/
def scenarioDBuf : List Nat :=
  [67, 114, 50, 52, 2, 0, 0, 0, 3, 0, 0, 0, 3, 0, 0, 0,
   107, 101, 121, 115, 105, 103, 88, 89]

/-- A 16-byte CRX2 container with zero-length key and signature and no
payload: parsing succeeds with zip_offset 16 = buffer length, so the
remaining slice is empty. -/
def emptyTailBuf : List Nat :=
  [67, 114, 50, 52, 2, 0, 0, 0, 0, 0, 0, 0, 0, 0, 0, 0]

/-- A CRX3 container whose declared header_length 4 cuts the single encoded
record (tag 2, varint length 3, three payload bytes — 5 bytes in total) one
byte short. -/
def crx3ShortBuf : List Nat :=
  [67, 114, 50, 52, 3, 0, 0, 0, 4, 0, 0, 0, 2, 3, 9, 9]

/-- Concrete scenario C of the specification: a CRX3 container whose
declared header_length is 10 but whose encoded records (one proof record of
8 bytes, then the end-of-records byte) total 8 bytes. -/
def scenarioCBuf : List Nat :=
  [67, 114, 50, 52, 3, 0, 0, 0, 10, 0, 0, 0,
   2, 6, 1, 1, 75, 2, 1, 83, 0, 0]

/-- A fully well-formed CRX2 container: scenario A with the signature length
declared as u32(3), so the ZIP payload PK 03 04 really starts at
zip_offset 22. -/
def wellFormedBuf : List Nat :=
  [67, 114, 50, 52, 2, 0, 0, 0, 3, 0, 0, 0, 3, 0, 0, 0,
   107, 101, 121, 115, 105, 103, 80, 75, 3, 4]

/-- A CRX2 container whose declared key length 5 overruns the 16-byte
buffer. -/
def crx2TruncBuf : List Nat :=
  [67, 114, 50, 52, 2, 0, 0, 0, 5, 0, 0, 0, 0, 0, 0, 0]

/-- A CRX3 container whose declared header_length 99 overruns the 12-byte
buffer. -/
def crx3TruncBuf : List Nat :=
  [67, 114, 50, 52, 3, 0, 0, 0, 99, 0, 0, 0]

deriving instance DecidableEq for Except

theorem readU32LE_none_of_short (buf : List Nat) (off : Nat)
    (h : buf.length < off + 4) : readU32LE buf off = none := by
  unfold readU32LE
  rw [if_neg (by omega)]

theorem readU32LE_le_of_some (buf : List Nat) (off v : Nat)
    (h : readU32LE buf off = some v) : off + 4 ≤ buf.length := by
  by_contra hc
  rw [readU32LE_none_of_short buf off (by omega)] at h
  cases h

theorem readRecordsF_error_eq (fuel : Nat) :
    ∀ (s : List Nat) (e : CrxError),
      readRecordsF fuel s = .error e → e = .TruncatedRecord := by
  induction fuel with
  | zero =>
    intro s e h
    cases s with
    | nil => simp [readRecordsF] at h
    | cons t rest =>
      simp only [readRecordsF] at h
      cases h
      rfl
  | succ n ih =>
    intro s e h
    cases s with
    | nil => simp [readRecordsF] at h
    | cons t rest =>
      unfold readRecordsF at h
      split at h
      · simp at h
      · split at h
        · cases h; rfl
        · split at h
          · cases h; rfl
          · split at h
            · simp at h
            · cases h
              exact ih _ _ (by assumption)

theorem decodeProof_error_eq (p : List Nat) (e : CrxError)
    (h : decodeProof p = .error e) : e = .TruncatedRecord := by
  unfold decodeProof at h
  split at h
  · cases h
    exact readRecordsF_error_eq _ _ _ (by assumption)
  · simp at h

theorem decodeProofs_error_eq (rs : List (Nat × List Nat)) (e : CrxError)
    (h : decodeProofs rs = .error e) : e = .TruncatedRecord := by
  induction rs with
  | nil => simp [decodeProofs] at h
  | cons tp rest ih =>
    obtain ⟨t, p⟩ := tp
    unfold decodeProofs at h
    split at h
    · split at h
      · simp at h
      · cases h
        exact decodeProof_error_eq _ _ (by assumption)
      · cases h
        exact ih (by assumption)
    · exact ih h

theorem decode_error_cases (s : List Nat) (e : CrxError)
    (h : decode s = .error e) :
    e = .LengthMismatch ∨ e = .TruncatedRecord := by
  unfold decode at h
  split at h
  · cases h
    exact .inr (readRecordsF_error_eq _ _ _ (by assumption))
  · split at h
    · exact .inr (decodeProofs_error_eq _ _ h)
    · cases h
      exact .inl rfl

theorem parse_container_eq_versioned (buf : List Nat) (v : Nat)
    (hm : buf.take 4 = crxMagic) (hv : readU32LE buf 4 = some v) :
    parse_container buf = parseVersioned buf v := by
  have h8 := readU32LE_le_of_some buf 4 v hv
  unfold parse_container
  rw [if_neg (by omega), if_pos hm, hv]

theorem parse_container_zip_le (buf : List Nat) (hd : ContainerHeader)
    (hp : parse_container buf = .ok hd) : hd.zip_offset ≤ buf.length := by
  unfold parse_container parseVersioned parseCrx2 parseCrx3 at hp
  repeat' split at hp
  all_goals first
    | exact (Except.noConfusion hp)
    | (cases hp; simp; omega)

theorem parse_container_error_taxonomy (buf : List Nat) (e : CrxError)
    (hp : parse_container buf = .error e) : isTaxonomyError e = true := by
  unfold parse_container parseVersioned parseCrx2 parseCrx3 at hp
  repeat' split at hp
  all_goals first
    | exact (Except.noConfusion hp)
    | (cases hp; rfl)
    | (cases hp
       rcases decode_error_cases _ _ (by assumption) with h1 | h1 <;> rw [h1] <;> rfl)

theorem extract_payload_error_taxonomy (buf : List Nat) (off : Nat) (e : CrxError)
    (hp : extract_payload_from_offset buf off = .error e) :
    isTaxonomyError e = true := by
  unfold extract_payload_from_offset at hp
  repeat' split at hp
  all_goals first
    | exact (Except.noConfusion hp)
    | (cases hp; rfl)

theorem extract_zip_data_error_taxonomy (buf : List Nat) (e : CrxError)
    (hp : extract_zip_data buf = .error e) : isTaxonomyError e = true := by
  unfold extract_zip_data at hp
  split at hp
  · exact extract_payload_error_taxonomy _ _ _ hp
  · cases hp
    exact parse_container_error_taxonomy _ _ (by assumption)

theorem parse_crx_ok_elim (bytes : List Nat) (info : CrxInfo)
    (hp : parse_crx bytes = .ok info) :
    ∃ hd, parse_container bytes = .ok hd ∧ info.zip_offset = hd.zip_offset := by
  unfold parse_crx at hp
  cases hc : parse_container bytes with
  | ok hd =>
    rw [hc] at hp
    simp only [Except.map] at hp
    exact ⟨hd, rfl, by rw [← Except.ok.inj hp]⟩
  | error e => rw [hc] at hp; simp [Except.map] at hp

theorem parse_crx_zip_le (bytes : List Nat) (info : CrxInfo)
    (hp : parse_crx bytes = .ok info) : info.zip_offset ≤ bytes.length := by
  obtain ⟨hd, hc, hz⟩ := parse_crx_ok_elim bytes info hp
  rw [hz]
  exact parse_container_zip_le bytes hd hc

theorem deref_writeH_ne (h : Heap) (r i : Nat) (a : List Nat) (hne : r ≠ i) :
    deref (writeH h r a) i = deref h i := by
  simp [deref, writeH, List.get?_eq_getElem?, List.getElem?_set_ne hne]

theorem deref_append_lt (h l : Heap) (r : Nat) (hr : r < h.length) :
    deref (h ++ l) r = deref h r := by
  simp only [deref, List.get?_eq_getElem?, List.getElem?_append]
  rw [if_pos hr]

theorem deref_append_self (h : Heap) (a : List Nat) :
    deref (h ++ [a]) h.length = a := by
  simp [deref, List.get?_eq_getElem?]

theorem get?_some_lt (l : List Nat) (n a : Nat) (h : l.get? n = some a) :
    n < l.length := by
  by_contra hc
  rw [List.get?_eq_none.mpr (by omega)] at h
  cases h

theorem jsValidateZip_error_eq (d : List Nat) (e : CrxError)
    (h : jsValidateZip d = .error e) : e = .JsMessage notAValidZipMsg := by
  unfold jsValidateZip at h
  split at h
  · exact Except.noConfusion h
  · cases h
    rfl

theorem jsValidateZip_short (d : List Nat) (h : d.length < 2) :
    jsValidateZip d = .error (.JsMessage notAValidZipMsg) := by
  have hn : ¬(d.get? 0 = some 80 ∧ d.get? 1 = some 75) := by
    intro hco
    have := get?_some_lt d 1 75 hco.2
    omega
  unfold jsValidateZip
  rw [if_neg hn]

theorem extractZip_ok_sig (buffer z : List Nat) (hz : extractZip buffer = .ok z) :
    z.get? 0 = some 80 ∧ z.get? 1 = some 75 := by
  unfold extractZip at hz
  split at hz
  · unfold jsValidateZip at hz
    split at hz
    · cases hz
      assumption
    · exact Except.noConfusion hz
  · exact Except.noConfusion hz

/-- C1 counterexample: on the 16-byte CRX2 container with zero-length key
and signature, parsing succeeds with zip_offset 16, the specification's
`extract_payload_from_offset` fails with `EmptyPayload` (the remaining
slice is empty), yet `CrxParser.manualExtractZip` returns the empty byte
array as if valid — so the convenience path does not apply the same bounds
checks as the full extractor. -/
theorem c1_counterexample :
    parse_crx emptyTailBuf = .ok ⟨2, [], [], 16⟩ ∧
    extract_payload_from_offset emptyTailBuf 16 = .error .EmptyPayload ∧
    manualExtractZip emptyTailBuf = .ok [] ∧
    manualExtractZip emptyTailBuf ≠ .error .EmptyPayload :=
  ⟨rfl, rfl, rfl, by decide⟩

/-- C1 (amended): `CrxParser.manualExtractZip` applies no extraction-stage
checks of its own: after a successful parse it returns
`bytes.slice(zip_offset)` even when the remaining slice is shorter than
2 bytes, and it never fails with `OffsetOutOfRange` or `EmptyPayload`; the
parser's own validation does ensure zip_offset is at most the buffer
length, so no out-of-range read occurs. -/
theorem c1_amended : ∀ (bytes : List Nat),
    (∀ info, parse_crx bytes = .ok info →
      manualExtractZip bytes = .ok (bytes.drop info.zip_offset) ∧
      info.zip_offset ≤ bytes.length) ∧
    manualExtractZip bytes ≠ .error .OffsetOutOfRange ∧
    manualExtractZip bytes ≠ .error .EmptyPayload := by
  intro bytes
  refine ⟨fun info hp => ⟨?_, parse_crx_zip_le bytes info hp⟩, ?_, ?_⟩
  · unfold manualExtractZip
    rw [hp]
  · unfold manualExtractZip
    split <;> simp
  · unfold manualExtractZip
    split <;> simp

/-- Witness for C1: the amended statement evaluated on scenario A's
buffer. -/
theorem c1_amended_witness :
    manualExtractZip scenarioABuf = .ok (scenarioABuf.drop 21) ∧
    (21 : Nat) ≤ scenarioABuf.length :=
  (c1_amended scenarioABuf).1 ⟨2, [107, 101, 121], [115, 105], 21⟩ rfl

/-- C4 counterexample: scenario A's buffer, byte for byte as the
specification writes it (sig_length declared as u32(2)), parses to
signatures containing the two bytes si and zip_offset 21, not the claimed
signatures sig and zip_offset 22 (which would require sig_length u32(3)). -/
theorem c4_counterexample :
    parse_container scenarioABuf = .ok ⟨2, [[107, 101, 121]], [[115, 105]], 21⟩ ∧
    parse_container scenarioABuf ≠ .ok ⟨2, [[107, 101, 121]], [[115, 105, 103]], 22⟩ :=
  ⟨rfl, by decide⟩

/-- C4 (amended): for every valid CRX2 buffer, `parse_container` returns
zip_offset 16 + key_length + sig_length, public_keys the single slice
buffer[16 .. 16+kl] and signatures the single slice
buffer[16+kl .. 16+kl+sl]; on scenario A's concrete buffer the declared
lengths (3, 2) give signatures [si] and zip_offset 21. -/
theorem c4_amended : ∀ (buf : List Nat) (kl sl : Nat),
    buf.take 4 = crxMagic →
    readU32LE buf 4 = some 2 →
    readU32LE buf 8 = some kl →
    readU32LE buf 12 = some sl →
    16 + kl + sl ≤ buf.length →
    parse_container buf =
      .ok ⟨2, [(buf.drop 16).take kl], [(buf.drop (16 + kl)).take sl], 16 + kl + sl⟩ := by
  intro buf kl sl hm hv hkl hsl hlen
  rw [parse_container_eq_versioned buf 2 hm hv]
  unfold parseVersioned parseCrx2
  rw [if_pos rfl, hkl, hsl]
  simp only []
  rw [if_neg (by omega)]

/-- Witness for C4: the amended statement evaluated on scenario A's
buffer. -/
theorem c4_amended_witness :
    parse_container scenarioABuf = .ok ⟨2, [[107, 101, 121]], [[115, 105]], 21⟩ :=
  c4_amended scenarioABuf 3 2 rfl rfl rfl rfl (by decide)

/-- C6 counterexample: a bad-magic buffer makes the convenience path
`CrxParser.manualExtractZip` surface the failure as a thrown generic
message error (a new Error wrapping the cause's message), not as one of the
eight matchable variants of the taxonomy. -/
theorem c6_counterexample :
    manualExtractZip [0, 0, 0, 0] =
      .error (.JsMessage "Failed to extract ZIP data: BadMagic") ∧
    isTaxonomyError (.JsMessage "Failed to extract ZIP data: BadMagic") = false :=
  ⟨rfl, rfl⟩

/-- C6 (amended): failures of the core `parse_container` and
`extract_zip_data` are surfaced as distinct matchable variants of the
taxonomy and no failure path returns data as if valid (failure is an error
value by construction); but the JS layer deviates: `manualExtractZip`
re-throws every failure as a generic wrapped-message error, and
`extractZip` either passes a core taxonomy error through unchanged or
throws its own fixed-message signature error. -/
theorem c6_amended : ∀ (buf : List Nat),
    (∀ e, parse_container buf = .error e → isTaxonomyError e = true) ∧
    (∀ e, extract_zip_data buf = .error e → isTaxonomyError e = true) ∧
    (∀ e, manualExtractZip buf = .error e → ∃ s, e = .JsMessage s) ∧
    (∀ e, extractZip buf = .error e →
      isTaxonomyError e = true ∨ e = .JsMessage notAValidZipMsg) := by
  intro buf
  refine ⟨fun e h => parse_container_error_taxonomy _ _ h,
          fun e h => extract_zip_data_error_taxonomy _ _ h, ?_, ?_⟩
  · intro e h
    unfold manualExtractZip at h
    split at h
    · exact Except.noConfusion h
    · cases h
      exact ⟨_, rfl⟩
  · intro e h
    unfold extractZip at h
    split at h
    · unfold jsValidateZip at h
      split at h
      · exact Except.noConfusion h
      · cases h
        exact .inr rfl
    · cases h
      exact .inl (extract_zip_data_error_taxonomy _ _ (by assumption))

/-- Witness for C6: the amended statement evaluated on concrete buffers (a
bad-magic buffer for the JS wrapper, the empty buffer for the core). -/
theorem c6_amended_witness :
    (∃ s, CrxError.JsMessage "Failed to extract ZIP data: BadMagic" = .JsMessage s) ∧
    isTaxonomyError .Truncated = true :=
  ⟨(c6_amended [0, 0, 0, 0]).2.2.1 _ rfl, (c6_amended []).1 .Truncated rfl⟩

/-- C7: `CrxParser.parse` is a pure, stateless function of its buffer: its
result does not depend on the module state, two calls on the same buffer
return structurally equal results, and the module-level variables
`initialized` and `initPromise` are unchanged by a call. -/
theorem c7 : ∀ (s t : JsModuleState) (buffer : List Nat),
    (crxParseS s buffer).2 = (crxParseS t buffer).2 ∧
    (crxParseS ((crxParseS s buffer).1) buffer).2 = (crxParseS s buffer).2 ∧
    ((crxParseS s buffer).1).initialized = s.initialized ∧
    ((crxParseS s buffer).1).initPromise = s.initPromise := by
  intro s t buffer
  refine ⟨rfl, rfl, rfl, rfl⟩

/-- C2: whenever `CrxParser.extractZip` returns a payload its first two
bytes are 0x50 and 0x4B; and when the bytes at the parsed zip_offset exist
but are not that signature, extraction fails with the `NotZip` error — the
failure is fatal, the payload is not returned. -/
theorem c2 : ∀ (buffer : List Nat),
    (∀ z, extractZip buffer = .ok z →
      z.get? 0 = some 80 ∧ z.get? 1 = some 75) ∧
    (∀ info, parse_crx buffer = .ok info →
      2 ≤ (buffer.drop info.zip_offset).length →
      ¬((buffer.drop info.zip_offset).get? 0 = some 80 ∧
        (buffer.drop info.zip_offset).get? 1 = some 75) →
      extractZip buffer = .error .NotZip) := by
  intro buffer
  constructor
  · exact extractZip_ok_sig buffer
  · intro info hp hlen hpk
    obtain ⟨hd, hc, hzo⟩ := parse_crx_ok_elim buffer info hp
    rw [hzo] at hlen hpk
    have hoff : hd.zip_offset ≤ buffer.length := parse_container_zip_le _ _ hc
    have hepo : extract_payload_from_offset buffer hd.zip_offset = .error .NotZip := by
      unfold extract_payload_from_offset
      rw [if_neg (by omega)]
      rcases hs : buffer.drop hd.zip_offset with _ | ⟨a, _ | ⟨b, rest⟩⟩
      · rw [hs] at hlen
        simp at hlen
      · rw [hs] at hlen
        simp at hlen
      · rw [hs] at hpk
        have hab : ¬(a = 80 ∧ b = 75) := by
          intro hco
          exact hpk ⟨by simp [hco.1], by simp [hco.2]⟩
        show (if a = 80 ∧ b = 75 then Except.ok (a :: b :: rest)
            else Except.error CrxError.NotZip) = Except.error CrxError.NotZip
        rw [if_neg hab]
    unfold extractZip extract_zip_data
    simp only [hc, hepo]

/-- Witness for C2: on scenario D's buffer (valid CRX2 header, payload
bytes XY at the zip offset) extraction reports `NotZip`. -/
theorem c2_witness : extractZip scenarioDBuf = .error .NotZip :=
  (c2 scenarioDBuf).2 ⟨2, [107, 101, 121], [115, 105, 103], 22⟩ rfl
    (by decide) (by decide)

/-- C5: any buffer shorter than 8 bytes fails to parse with `Truncated` or
`BadMagic`; a successful parse never produces a zip_offset past the buffer
end; and each version path checks its declared lengths against the buffer
and fails closed with `Truncated` when they would read past the end. -/
theorem c5 : ∀ (buf : List Nat),
    (buf.length < 8 →
      parse_container buf = .error .Truncated ∨
      parse_container buf = .error .BadMagic) ∧
    (∀ hd, parse_container buf = .ok hd → hd.zip_offset ≤ buf.length) ∧
    (∀ kl sl, buf.take 4 = crxMagic → readU32LE buf 4 = some 2 →
      readU32LE buf 8 = some kl → readU32LE buf 12 = some sl →
      buf.length < 16 + kl + sl → parse_container buf = .error .Truncated) ∧
    (∀ hl, buf.take 4 = crxMagic → readU32LE buf 4 = some 3 →
      readU32LE buf 8 = some hl →
      buf.length < 12 + hl → parse_container buf = .error .Truncated) := by
  intro buf
  refine ⟨?_, fun hd hp => parse_container_zip_le buf hd hp, ?_, ?_⟩
  · intro h8
    by_cases h4 : buf.length < 4
    · left
      unfold parse_container
      rw [if_pos h4]
    · by_cases hm : buf.take 4 = crxMagic
      · left
        unfold parse_container
        rw [if_neg h4, if_pos hm, readU32LE_none_of_short buf 4 (by omega)]
      · right
        unfold parse_container
        rw [if_neg h4, if_neg hm]
  · intro kl sl hm hv hkl hsl hlen
    rw [parse_container_eq_versioned buf 2 hm hv]
    unfold parseVersioned parseCrx2
    rw [if_pos rfl, hkl, hsl]
    simp only []
    rw [if_pos (by omega)]
  · intro hl hm hv hhl hlen
    rw [parse_container_eq_versioned buf 3 hm hv]
    unfold parseVersioned parseCrx3
    rw [if_neg (by decide), if_pos rfl, hhl]
    simp only []
    rw [if_pos (by omega)]

/-- Witness for C5: a 1-byte buffer fails with `Truncated` or `BadMagic`;
a CRX2 container whose declared key length overruns the buffer and a CRX3
container whose declared header length overruns the buffer both fail with
`Truncated`; a successful parse on a well-formed container keeps zip_offset
within the buffer. -/
theorem c5_witness :
    (parse_container [67] = .error .Truncated ∨
      parse_container [67] = .error .BadMagic) ∧
    parse_container crx2TruncBuf = .error .Truncated ∧
    parse_container crx3TruncBuf = .error .Truncated ∧
    (22 : Nat) ≤ wellFormedBuf.length :=
  ⟨(c5 [67]).1 (by decide),
   (c5 crx2TruncBuf).2.2.1 5 0 rfl rfl rfl rfl (by decide),
   (c5 crx3TruncBuf).2.2.2 99 rfl rfl rfl (by decide),
   (c5 wellFormedBuf).2.1 ⟨2, [[107, 101, 121]], [[115, 105, 103]], 22⟩ rfl⟩

/-- C8: whenever `CrxParser.extractZip` returns normally the payload has at
least 2 bytes and starts with 0x50 0x4B; a payload shorter than 2 bytes
fails the JS signature check (out-of-range indexing yields undefined) with
exactly the same thrown error as a wrong signature, and that check has no
other error — no separate empty-payload variant exists at this layer. -/
theorem c8 : ∀ (buffer : List Nat),
    (∀ z, extractZip buffer = .ok z →
      2 ≤ z.length ∧ z.get? 0 = some 80 ∧ z.get? 1 = some 75) ∧
    (∀ d : List Nat, d.length < 2 →
      jsValidateZip d = .error (.JsMessage notAValidZipMsg)) ∧
    (∀ d e, jsValidateZip d = .error e → e = .JsMessage notAValidZipMsg) := by
  intro buffer
  refine ⟨?_, fun d hd => jsValidateZip_short d hd,
    fun d e hd => jsValidateZip_error_eq d e hd⟩
  intro z hz
  obtain ⟨h0, h1⟩ := extractZip_ok_sig buffer z hz
  have := get?_some_lt z 1 75 h1
  exact ⟨by omega, h0, h1⟩

/-- Witness for C8: the well-formed container extracts to the 4-byte
payload PK 03 04; a 1-byte payload and a 2-byte wrong-signature payload are
rejected by the JS check with the same error. -/
theorem c8_witness :
    (2 ≤ ([80, 75, 3, 4] : List Nat).length ∧
      ([80, 75, 3, 4] : List Nat).get? 0 = some 80 ∧
      ([80, 75, 3, 4] : List Nat).get? 1 = some 75) ∧
    jsValidateZip [9] = .error (.JsMessage notAValidZipMsg) ∧
    CrxError.JsMessage notAValidZipMsg = .JsMessage notAValidZipMsg :=
  ⟨(c8 wellFormedBuf).1 [80, 75, 3, 4] rfl,
   (c8 []).2.1 [9] (by decide),
   (c8 []).2.2 [88, 89] (.JsMessage notAValidZipMsg) rfl⟩

/-- C3 counterexample: in the CRX3 container whose declared header_length 4
cuts the single 5-byte encoded record one byte short (a mismatch of exactly
one byte), parsing fails with `TruncatedRecord`, not with the claimed
`LengthMismatch`. -/
theorem c3_counterexample :
    parse_container crx3ShortBuf = .error .TruncatedRecord ∧
    parse_container crx3ShortBuf ≠ .error .LengthMismatch :=
  ⟨rfl, by decide⟩

/-- C3 (amended): a CRX3 parse succeeds only when the record decoder
consumes exactly header_length bytes; when the records end before
header_length bytes (trailing bytes remain), parsing fails with
`LengthMismatch`; when a record would overrun the declared bound, parsing
fails with `TruncatedRecord`; in no case is a mismatch silently
truncated or ignored. -/
theorem c3_amended : ∀ (buf : List Nat) (hl : Nat),
    buf.take 4 = crxMagic →
    readU32LE buf 4 = some 3 →
    readU32LE buf 8 = some hl →
    12 + hl ≤ buf.length →
    (∀ rs c, readRecords ((buf.drop 12).take hl) = .ok (rs, c) → c ≠ hl →
      parse_container buf = .error .LengthMismatch) ∧
    (∀ e, readRecords ((buf.drop 12).take hl) = .error e →
      parse_container buf = .error .TruncatedRecord) ∧
    (∀ hd, parse_container buf = .ok hd →
      ∃ rs, readRecords ((buf.drop 12).take hl) = .ok (rs, hl)) := by
  intro buf hl hm hv hhl hlen
  have hslice : ((buf.drop 12).take hl).length = hl := by
    simp only [List.length_take, List.length_drop]
    omega
  have hred : parse_container buf = parseCrx3 buf := by
    rw [parse_container_eq_versioned buf 3 hm hv]
    unfold parseVersioned
    rw [if_neg (by decide), if_pos rfl]
  have hred2 : parseCrx3 buf =
      match decode ((buf.drop 12).take hl) with
      | .ok (ks, ss) => .ok ⟨3, ks, ss, 12 + hl⟩
      | .error e => .error e := by
    unfold parseCrx3
    rw [hhl]
    simp only []
    rw [if_neg (by omega)]
  refine ⟨?_, ?_, ?_⟩
  · intro rs c hrr hne
    have hdec : decode ((buf.drop 12).take hl) = .error .LengthMismatch := by
      unfold decode
      rw [hrr]
      simp only []
      rw [hslice, if_neg hne]
    rw [hred, hred2, hdec]
  · intro e hrr
    have he := readRecordsF_error_eq _ _ _ hrr
    have hdec : decode ((buf.drop 12).take hl) = .error .TruncatedRecord := by
      unfold decode
      rw [hrr, he]
    rw [hred, hred2, hdec]
  · intro hd hp
    rw [hred, hred2] at hp
    cases hrr : readRecords ((buf.drop 12).take hl) with
    | error e =>
      unfold decode at hp
      rw [hrr] at hp
      exact Except.noConfusion hp
    | ok rc =>
      obtain ⟨rs, c⟩ := rc
      refine ⟨rs, ?_⟩
      unfold decode at hp
      rw [hrr] at hp
      simp only [] at hp
      by_cases hce : c = ((buf.drop 12).take hl).length
      · rw [hce, hslice]
      · rw [if_neg hce] at hp
        exact Except.noConfusion hp

/-- Witness for C3: scenario C's buffer (declared header_length 10,
encoded records totalling 8 bytes) fails with `LengthMismatch`. -/
theorem c3_amended_witness :
    parse_container scenarioCBuf = .error .LengthMismatch :=
  (c3_amended scenarioCBuf 10 rfl rfl rfl (by decide)).1
    [(2, [1, 1, 75, 2, 1, 83])] 8 rfl (by decide)

/-- C9: `CrxParser.parse` awaits initialization on every call, so its
result is the pure parse regardless of the incoming module state;
`CrxParser.extractZip` and `CrxParser.manualExtractZip` invoke the wasm
exports directly and fail on an uninitialized module (their results equal
the plain functions exactly when the module is ready), and no operation
writes the module-level `initialized` and `initPromise` variables. -/
theorem c9 : ∀ (s : JsModuleState) (buffer : List Nat),
    ((crxParseS s buffer).2 =
      (parse_crx buffer).map fun i =>
        ParseResult.mk i.version i.public_key i.signature i.zip_offset) ∧
    (s.wasmReady = false →
      (extractZipS s buffer).2 = .error (.JsMessage wasmNotReadyMsg) ∧
      (manualExtractZipS s buffer).2 =
        .error (.JsMessage ("Failed to extract ZIP data: " ++ wasmNotReadyMsg))) ∧
    (s.wasmReady = true →
      (extractZipS s buffer).2 = extractZip buffer ∧
      (manualExtractZipS s buffer).2 = manualExtractZip buffer) ∧
    (extractZipS s buffer).1 = s ∧
    (manualExtractZipS s buffer).1 = s ∧
    (initModule s).initialized = s.initialized ∧
    (initModule s).initPromise = s.initPromise ∧
    (crxParseS s buffer).1.initialized = s.initialized ∧
    (crxParseS s buffer).1.initPromise = s.initPromise := by
  intro s buffer
  refine ⟨rfl, fun hf => ?_, fun ht => ?_, rfl, rfl, rfl, rfl, rfl, rfl⟩
  · constructor <;>
      simp [extractZipS, manualExtractZipS, wasmGuard, hf, errMessage]
  · constructor <;>
      simp [extractZipS, manualExtractZipS, wasmGuard, ht, extractZip,
        manualExtractZip]

/-- Witness for C9: with the module not yet initialized, extraction fails
with the not-initialized error while `CrxParser.parse` still parses; with
the module initialized, the stateful wrappers agree with the plain
functions. -/
theorem c9_witness :
    (extractZipS ⟨false, none, false⟩ []).2 = .error (.JsMessage wasmNotReadyMsg) ∧
    (manualExtractZipS ⟨false, none, true⟩ wellFormedBuf).2 =
      manualExtractZip wellFormedBuf :=
  ⟨((c9 ⟨false, none, false⟩ []).2.1 rfl).1,
   ((c9 ⟨false, none, true⟩ wellFormedBuf).2.2.1 rfl).2⟩

/-- C10: the object returned by `CrxParser.parse` does not alias the
caller's buffer: `publicKey` and `signature` are freshly allocated copies
and `version`/`zipOffset` are scalars, so overwriting the input store
afterwards leaves the returned arrays unchanged and overwriting the
returned arrays leaves the input store unchanged; likewise
`manualExtractZip` returns a fresh copy produced by `slice`. -/
theorem c10 : ∀ (h : Heap) (r : Nat) (info : CrxInfo),
    r < h.length →
    parse_crx (deref h r) = .ok info →
    crxParseH h r = ((h ++ [info.public_key]) ++ [info.signature],
      .ok ⟨info.version, h.length, h.length + 1, info.zip_offset⟩) ∧
    manualExtractZipH h r =
      (h ++ [(deref h r).drop info.zip_offset], .ok h.length) ∧
    h.length ≠ r ∧ h.length + 1 ≠ r ∧
    deref ((h ++ [info.public_key]) ++ [info.signature]) h.length =
      info.public_key ∧
    deref ((h ++ [info.public_key]) ++ [info.signature]) (h.length + 1) =
      info.signature ∧
    deref ((h ++ [info.public_key]) ++ [info.signature]) r = deref h r ∧
    (∀ a, deref (writeH ((h ++ [info.public_key]) ++ [info.signature]) r a)
        h.length = info.public_key ∧
      deref (writeH ((h ++ [info.public_key]) ++ [info.signature]) r a)
        (h.length + 1) = info.signature) ∧
    (∀ a, deref (writeH ((h ++ [info.public_key]) ++ [info.signature])
        h.length a) r = deref h r ∧
      deref (writeH ((h ++ [info.public_key]) ++ [info.signature])
        (h.length + 1) a) r = deref h r) ∧
    deref (h ++ [(deref h r).drop info.zip_offset]) h.length =
      (deref h r).drop info.zip_offset ∧
    (∀ a, deref (writeH (h ++ [(deref h r).drop info.zip_offset]) r a)
      h.length = (deref h r).drop info.zip_offset) := by
  intro h r info hr hp
  have hlen1 : (h ++ [info.public_key]).length = h.length + 1 := by simp
  have hne0 : h.length ≠ r := by omega
  have hne1 : h.length + 1 ≠ r := by omega
  have d1 : deref ((h ++ [info.public_key]) ++ [info.signature]) h.length =
      info.public_key := by
    rw [deref_append_lt _ _ _
      (by simp only [List.length_append, List.length_cons, List.length_nil]; omega)]
    exact deref_append_self h info.public_key
  have d2 : deref ((h ++ [info.public_key]) ++ [info.signature])
      (h.length + 1) = info.signature := by
    rw [← hlen1]
    exact deref_append_self (h ++ [info.public_key]) info.signature
  have d3 : deref ((h ++ [info.public_key]) ++ [info.signature]) r =
      deref h r := by
    rw [deref_append_lt _ _ _
      (by simp only [List.length_append, List.length_cons, List.length_nil]; omega)]
    exact deref_append_lt h [info.public_key] r hr
  have d4 : deref (h ++ [(deref h r).drop info.zip_offset]) h.length =
      (deref h r).drop info.zip_offset :=
    deref_append_self h _
  refine ⟨?_, ?_, hne0, hne1, d1, d2, d3, fun a => ⟨?_, ?_⟩,
    fun a => ⟨?_, ?_⟩, d4, fun a => ?_⟩
  · unfold crxParseH allocH
    rw [hp]
    simp
  · unfold manualExtractZipH allocH
    rw [hp]
  · rw [deref_writeH_ne _ _ _ _ (fun he => hne0 he.symm)]
    exact d1
  · rw [deref_writeH_ne _ _ _ _ (fun he => hne1 he.symm)]
    exact d2
  · rw [deref_writeH_ne _ _ _ _ hne0]
    exact d3
  · rw [deref_writeH_ne _ _ _ _ hne1]
    exact d3
  · rw [deref_writeH_ne _ _ _ _ (fun he => hne0 he.symm)]
    exact d4

/-- Witness for C10: on a one-store heap holding scenario A's buffer,
parsing allocates the key and signature copies in fresh stores 1 and 2, and
manual extraction allocates the payload tail copy in fresh store 1. -/
theorem c10_witness :
    crxParseH [scenarioABuf] 0 =
      ([scenarioABuf, [107, 101, 121], [115, 105]], .ok ⟨2, 1, 2, 21⟩) ∧
    manualExtractZipH [scenarioABuf] 0 =
      ([scenarioABuf, [103, 80, 75, 3, 4]], .ok 1) :=
  ⟨(c10 [scenarioABuf] 0 ⟨2, [107, 101, 121], [115, 105], 21⟩
      (by decide) rfl).1,
   (c10 [scenarioABuf] 0 ⟨2, [107, 101, 121], [115, 105], 21⟩
      (by decide) rfl).2.1⟩

end Crx
